import Mathlib

/-!
Verification of the Claude Code notification handler
(`shell/notifications/claude-notifier.py`).

The program is a short-lived process invoked once per hook event.  It keeps a
SQLite table `tasks` (one row per unit of work), assigns a per-session
sequence number through an `AFTER INSERT` trigger, closes the most recently
created open task on `Stop`, and maps notification kinds to presentation
bundles that are handed to `terminal-notifier` (falling back to `osascript`).

The embedding below is shallow: SQLite rows become a Lean `List Task` kept in
insertion (rowid) order, timestamps are whole seconds (`Nat`), SQL `INTEGER`
durations are `Int`, and each handler becomes a pure function from the parsed
event payload and the current store to the successor store plus the list of
delivery requests.  Environment configuration (`NOTIFICATION_SOUND`,
`NOTIFICATION_EDITOR`) is a parameter record.  Facts about SQLite used by the
embedding and checked against SQLite 3 directly:
  * the `auto_seq` trigger runs inside the `INSERT` statement while the new
    row still has `seq = NULL`, so `COALESCE(MAX(seq), 0)` ranges over the
    previously inserted rows of the session only;
  * `INSERT INTO tasks (session_id, ...) VALUES (NULL, ...)` violates the
    `NOT NULL` constraint and raises `IntegrityError`;
  * a `NULL` bound parameter in `WHERE session_id = ?` matches no row;
  * `ORDER BY created_at DESC LIMIT 1` over the unindexed table returns,
    among the rows with maximal `created_at`, the one that comes first in
    table (rowid) order, i.e. the smallest id (SQLite scans in rowid order
    and its sort is stable);
  * `CAST((julianday(t2) - julianday(t1)) * 86400 AS INTEGER)` on
    whole-second timestamps is the exact difference in seconds (the
    floating-point `julianday` round-off is abstracted away).
-/

namespace ClaudeNotifier

/-- Environment configuration read by the script at startup:
`NOTIFICATION_SOUND` (default "Glass") and `NOTIFICATION_EDITOR`
(default "zed"). -/
structure Env where
  notificationSound : String
  editorCommand : String
deriving Repr, DecidableEq

/-- `format_duration`: human-readable duration.  The Python argument is an
unbounded integer coming from the SQL `INTEGER` column, hence `Int`. -/
def formatDuration (seconds : Int) : String :=
  if seconds < 60 then
    toString seconds ++ "s"
  else if seconds < 3600 then
    let minutes := seconds / 60
    let secs := seconds % 60
    if secs > 0 then toString minutes ++ "m " ++ toString secs ++ "s"
    else toString minutes ++ "m"
  else
    let hours := seconds / 3600
    let minutes := (seconds % 3600) / 60
    if minutes > 0 then toString hours ++ "h " ++ toString minutes ++ "m"
    else toString hours ++ "h"

/-- The duration-formatting rule exactly as the specification words it, for
non-negative whole seconds (spec section 4.2). -/
def formatDurationSpec (s : Nat) : String :=
  if s < 60 then toString s ++ "s"
  else if s < 3600 then
    if s % 60 ≠ 0 then toString (s / 60) ++ "m " ++ toString (s % 60) ++ "s"
    else toString (s / 60) ++ "m"
  else
    if (s % 3600) / 60 ≠ 0 then
      toString (s / 3600) ++ "h " ++ toString ((s % 3600) / 60) ++ "m"
    else toString (s / 3600) ++ "h"

/-- `os.path.basename`: the part of the path after the last slash. -/
def basename (p : String) : String :=
  ((p.splitOn "/").getLast?).getD ""

/-- `get_project_name`: `os.path.basename(cwd) or "Claude Code"`, with the
empty `cwd` itself also falling back to the product name. -/
def getProjectName (cwd : String) : String :=
  if cwd = "" then "Claude Code"
  else if basename cwd = "" then "Claude Code"
  else basename cwd

/-- The arguments of one `send_notification` call: a delivery request handed
to the gateway.  `cwd = none` models passing Python `None`. -/
structure Delivery where
  title : String
  subtitle : String
  message : String
  sound : String
  cwd : Option String
  urgency : String
deriving Repr, DecidableEq

/-- One row of the `notification_configs` table in `handle_notification`. -/
structure NotifConfig where
  title : String
  subtitle : String
  message : String
  sound : String
  urgency : String
  action : String
deriving Repr, DecidableEq

/-- The `notification_configs` dictionary lookup with its default entry
(`handle_notification`). -/
def notificationConfigs (env : Env) (ntype message : String) : NotifConfig :=
  if ntype = "permission_prompt" then
    ⟨"Permission Required", "Claude needs approval", message, "Basso",
      "critical", "focus"⟩
  else if ntype = "idle_prompt" then
    ⟨"Waiting for Input", "Claude is idle",
      "Waiting for your input (60+ seconds)", "Purr", "low", "focus"⟩
  else if ntype = "elicitation_dialog" then
    ⟨"Input Needed", "MCP tool requires input", message, "Ping", "high",
      "focus"⟩
  else if ntype = "auth_success" then
    ⟨"Authentication Success", "Logged in successfully", message, "Glass",
      "low", "none"⟩
  else
    ⟨"Claude Code", "Notification", message, env.notificationSound, "normal",
      "focus"⟩

/-- `handle_notification` minus logging: builds the delivery request, passing
`cwd` only when the config's action is `"focus"`. -/
def handleNotification (env : Env) (ntype message cwd : String) : Delivery :=
  let config := notificationConfigs env ntype message
  { title := config.title
    subtitle := config.subtitle
    message := config.message
    sound := config.sound
    cwd := if config.action = "focus" then some cwd else none
    urgency := config.urgency }

/-- Truthiness of the optional `cwd` string argument (`if cwd and ...`):
Python `None` and `""` are falsy. -/
def truthy : Option String → Bool
  | none => false
  | some s => s ≠ ""

/-- The `editor_cmds` mapping of `get_editor_command`, including the
`f'{EDITOR_COMMAND} "{cwd}"'` fallback for unrecognized editors. -/
def editorCmds (editor c : String) : String :=
  if editor = "zed" then "zed \"" ++ c ++ "\""
  else if editor = "code" then "/usr/local/bin/code \"" ++ c ++ "\""
  else if editor = "cursor" then "cursor \"" ++ c ++ "\""
  else if editor = "subl" then "subl \"" ++ c ++ "\""
  else if editor = "atom" then "atom \"" ++ c ++ "\""
  else editor ++ " \"" ++ c ++ "\""

/-- `get_editor_command`: `None` when `cwd` or `EDITOR_COMMAND` is falsy. -/
def getEditorCommand (env : Env) (cwd : Option String) : Option String :=
  if truthy cwd && env.editorCommand ≠ "" then
    some (editorCmds env.editorCommand ((cwd).getD ""))
  else none

/-- The `terminal-notifier` argument vector built by `send_notification`.
`urgency` is a parameter of `send_notification` and is threaded here to keep
the signature of the source; the body never reads it. -/
def primaryCmd (env : Env) (title subtitle message sound : String)
    (cwd : Option String) (urgency : String) : List String :=
  let base := ["terminal-notifier", "-title", title, "-subtitle", subtitle,
    "-message", message, "-sound", sound]
  let _ := urgency
  if truthy cwd && env.editorCommand ≠ "" then
    match getEditorCommand env cwd with
    | some executeCmd => base ++ ["-execute", executeCmd]
    | none => base
  else base

/-- The AppleScript text of the `osascript` fallback. -/
def fallbackScript (title subtitle message sound : String) : String :=
  "display notification \"" ++ message ++ "\" with title \"" ++ title ++
    "\" subtitle \"" ++ subtitle ++ "\" sound name \"" ++ sound ++ "\""

/-- How one `subprocess.run` call on an external transport behaves:
it completes (`check=False`, so a nonzero tool exit still completes), the
binary is missing (`FileNotFoundError`), it times out (`TimeoutExpired`),
or it raises some other exception. -/
inductive TransportResult where
  | completes
  | raisesFileNotFound
  | raisesTimeout
  | raisesOther
deriving Repr, DecidableEq

/-- Outcome of `send_notification` as observable from the caller. -/
inductive Outcome where
  | sentPrimary
  | sentFallback
  | loggedError
deriving Repr, DecidableEq

/-- `send_notification`: returns the list of external command lines attempted
(in order) and the outcome.  A total function: every exception of either
transport is caught inside the source function, so nothing escapes.  The
behaviors of the two transport calls are parameters `p` and `f`. -/
def sendNotification (env : Env) (title subtitle message sound : String)
    (cwd : Option String) (urgency : String) (p f : TransportResult) :
    List (List String) × Outcome :=
  let pcmd := primaryCmd env title subtitle message sound cwd urgency
  match p with
  | .completes => ([pcmd], .sentPrimary)
  | .raisesFileNotFound =>
    let fcmd := ["osascript", "-e", fallbackScript title subtitle message sound]
    match f with
    | .completes => ([pcmd, fcmd], .sentFallback)
    | _ => ([pcmd, fcmd], .loggedError)
  | _ => ([pcmd], .loggedError)

/-- One row of the `tasks` table.  `session_id` is `TEXT NOT NULL`, so a
stored row always carries a string.  `created_at` is the insertion timestamp
in whole seconds; `duration_seconds` is SQL `INTEGER`, hence `Int`. -/
structure Task where
  id : Nat
  session_id : String
  created_at : Nat
  prompt : String
  cwd : String
  seq : Nat
  completed_at : Option Nat
  duration_seconds : Option Int
deriving Repr, DecidableEq

/-- The `tasks` table.  `tasks` is kept in rowid order (SQLite scans the
unindexed table in rowid order); `nextId` models `AUTOINCREMENT`. -/
structure DB where
  tasks : List Task
  nextId : Nat
deriving Repr, DecidableEq

/-- A freshly initialized store. -/
def DB.empty : DB := ⟨[], 1⟩

/-- SQL `session_id = ?` where the bound parameter may be Python `None`:
a `NULL` parameter compares as unknown and matches no row. -/
def sessionMatches (sid : Option String) (t : Task) : Bool :=
  match sid with
  | none => false
  | some s => s = t.session_id

/-- The rows of one session, in table (creation) order. -/
def DB.sessionTasks (db : DB) (s : String) : List Task :=
  db.tasks.filter (fun t => t.session_id = s)

/-- `SELECT COALESCE(MAX(seq), 0) FROM tasks WHERE session_id = ?` as run by
the `auto_seq` trigger.  When the trigger fires, the freshly inserted row is
present but its `seq` is still `NULL`, which `MAX` ignores, so the maximum
over the pre-insert table is the faithful reading. -/
def DB.maxSeq (db : DB) (s : String) : Nat :=
  (db.sessionTasks s).foldl (fun m t => max m t.seq) 0

/-- `INSERT INTO tasks (session_id, prompt, cwd) VALUES (?, ?, ?)` together
with the `auto_seq` trigger, for a non-NULL session id.  SQLite holds the
write lock for the whole statement (the trigger included), so concurrent
opens serialize into some sequence of these atomic steps. -/
def DB.insertTask (db : DB) (s prompt cwd : String) (now : Nat) : DB :=
  let newTask : Task :=
    { id := db.nextId
      session_id := s
      created_at := now
      prompt := prompt
      cwd := cwd
      seq := db.maxSeq s + 1
      completed_at := none
      duration_seconds := none }
  { tasks := db.tasks ++ [newTask], nextId := db.nextId + 1 }

/-- The open tasks of a session, in table order:
`WHERE session_id = ? AND completed_at IS NULL`. -/
def DB.openTasks (db : DB) (sid : Option String) : List Task :=
  db.tasks.filter (fun t => sessionMatches sid t && t.completed_at.isNone)

/-- `SELECT id, created_at, seq ... ORDER BY created_at DESC LIMIT 1`:
the first row in table order whose `created_at` is maximal among the open
tasks of the session (SQLite's stable sort over the rowid-order scan keeps
the earliest row among equal keys; checked against SQLite directly). -/
def DB.selectLatestOpen (db : DB) (sid : Option String) : Option Task :=
  let opens := db.openTasks sid
  opens.find? (fun t => opens.all (fun u => u.created_at ≤ t.created_at))

/-- The `UPDATE tasks SET completed_at = CURRENT_TIMESTAMP,
duration_seconds = CAST(... AS INTEGER) WHERE id = ?` statement.  On the
whole-second timestamps of the model the julianday difference is exact. -/
def DB.closeTask (db : DB) (taskId : Nat) (now : Nat) : DB :=
  { db with tasks := db.tasks.map (fun t =>
      if t.id = taskId then
        { t with
          completed_at := some now
          duration_seconds := some ((now : Int) - (t.created_at : Int)) }
      else t) }

/-- `handle_stop` minus logging: select the latest open task, close it, and
request one completion notification; a session with no open task is left
entirely alone. -/
def handleStop (env : Env) (db : DB) (sid : Option String) (cwd : String)
    (now : Nat) : DB × List Delivery :=
  match db.selectLatestOpen sid with
  | none => (db, [])
  | some t =>
    let db2 := db.closeTask t.id now
    let durationStr := formatDuration ((now : Int) - (t.created_at : Int))
    (db2, [{ title := getProjectName cwd
             subtitle := "Task #" ++ toString t.seq ++ " complete"
             message := "Duration: " ++ durationStr
             sound := env.notificationSound
             cwd := some cwd
             urgency := "normal" }])

/-- `handle_subagent_stop`: one fixed low-urgency request, no store access. -/
def handleSubagentStop (env : Env) (cwd : String) : Delivery :=
  { title := getProjectName cwd
    subtitle := "Agent task complete"
    message := "Subagent finished processing"
    sound := env.notificationSound
    cwd := some cwd
    urgency := "low" }

/-- The `messages` dictionary of `handle_session_start`. -/
def sessionStartSubtitle (source : String) : String :=
  if source = "startup" then "Session started"
  else if source = "resume" then "Session resumed"
  else if source = "clear" then "Session cleared"
  else if source = "compact" then "Session compacted"
  else "Session event"

/-- `handle_session_start`; `nowHM` is `datetime.now().strftime("%H:%M")`. -/
def handleSessionStart (cwd source nowHM : String) : Delivery :=
  { title := getProjectName cwd
    subtitle := sessionStartSubtitle source
    message := "Ready to work • " ++ nowHM
    sound := "Glass"
    cwd := none
    urgency := "low" }

/-- `handle_session_end`. -/
def handleSessionEnd (cwd reason : String) : Delivery :=
  { title := getProjectName cwd
    subtitle := "Session ended"
    message := "Reason: " ++ reason
    sound := "Glass"
    cwd := none
    urgency := "low" }

/-- The payload fields the handlers read from the stdin JSON object; `none`
models an absent key.  `hook_event_name` is read only for the mismatch log
line, which the model drops. -/
structure EventData where
  hook_event_name : Option String := none
  session_id : Option String := none
  prompt : Option String := none
  cwd : Option String := none
  notification_type : Option String := none
  message : Option String := none
  source : Option String := none
  reason : Option String := none
deriving Repr, DecidableEq

/-- What arrived on stdin after `.strip()`: nothing, text that is not valid
JSON (`json.JSONDecodeError`), or a JSON object with the fields above. -/
inductive Stdin where
  | empty
  | malformed
  | obj (data : EventData)
deriving Repr, DecidableEq

/-- Everything observable from one process invocation: its exit code, the
store it leaves behind, the delivery requests passed to `send_notification`
in order, and the transport attempts with their outcomes. -/
structure RunResult where
  exit : Nat
  db : DB
  deliveries : List Delivery
  sent : List (List (List String) × Outcome)
deriving Repr, DecidableEq

/-- Run `send_notification` on every request of the invocation; `p`/`f` are
the behaviors of the primary and fallback transport calls. -/
def runDeliveries (env : Env) (p f : TransportResult)
    (ds : List Delivery) : List (List (List String) × Outcome) :=
  ds.map (fun d =>
    sendNotification env d.title d.subtitle d.message d.sound d.cwd d.urgency p f)

/-- `main`: `arg` is `sys.argv[1]` (`none` when missing), `stdin` the piped
payload, `db` the persisted store, `now` the clock in whole seconds and
`nowHM` its `%H:%M` rendering.  A `UserPromptSubmit` payload without
`session_id` inserts `NULL` into the `NOT NULL` column; the resulting
`IntegrityError` reaches the generic `except Exception` arm, which exits 1.
An unknown event argument exits 1 via `sys.exit(1)` (a `SystemExit` is not an
`Exception`, so the generic arm does not swallow it). -/
def mainModel (env : Env) (arg : Option String) (stdin : Stdin) (db : DB)
    (now : Nat) (nowHM : String) (p f : TransportResult) : RunResult :=
  match arg with
  | none => ⟨1, db, [], []⟩
  | some hookEvent =>
    match stdin with
    | .empty => ⟨0, db, [], []⟩
    | .malformed => ⟨1, db, [], []⟩
    | .obj data =>
      if hookEvent = "UserPromptSubmit" then
        match data.session_id with
        | none => ⟨1, db, [], []⟩
        | some sid =>
          ⟨0, db.insertTask sid (data.prompt.getD "") (data.cwd.getD "") now,
            [], []⟩
      else if hookEvent = "Stop" then
        let r := handleStop env db data.session_id (data.cwd.getD "") now
        ⟨0, r.1, r.2, runDeliveries env p f r.2⟩
      else if hookEvent = "SubagentStop" then
        let d := handleSubagentStop env (data.cwd.getD "")
        ⟨0, db, [d], runDeliveries env p f [d]⟩
      else if hookEvent = "Notification" then
        let d := handleNotification env (data.notification_type.getD "")
          (data.message.getD "Claude Code notification") (data.cwd.getD "")
        ⟨0, db, [d], runDeliveries env p f [d]⟩
      else if hookEvent = "SessionStart" then
        let d := handleSessionStart (data.cwd.getD "")
          (data.source.getD "startup") nowHM
        ⟨0, db, [d], runDeliveries env p f [d]⟩
      else if hookEvent = "SessionEnd" then
        let d := handleSessionEnd (data.cwd.getD "") (data.reason.getD "exit")
        ⟨0, db, [d], runDeliveries env p f [d]⟩
      else ⟨1, db, [], []⟩

/-- The event arguments `main` routes to a handler. -/
def knownEvents : List String :=
  ["UserPromptSubmit", "Stop", "SubagentStop", "Notification",
    "SessionStart", "SessionEnd"]

/-- The `seq` column of one session's rows, in creation (table) order. -/
def DB.seqsOf (db : DB) (s : String) : List Nat :=
  (db.sessionTasks s).map Task.seq

/-- One `openTask` request: the payload of one `UserPromptSubmit` event with
a non-NULL session id, plus the insertion timestamp. -/
structure OpenReq where
  sid : String
  prompt : String
  cwd : String
  time : Nat
deriving Repr, DecidableEq

/-- Run a sequence of `openTask` calls.  SQLite serializes the insert
statements (trigger included) of concurrent invocations, so any concurrent
execution is observationally one such sequence. -/
def applyOpens (db : DB) (reqs : List OpenReq) : DB :=
  reqs.foldl (fun d r => d.insertTask r.sid r.prompt r.cwd r.time) db

/-- Store invariant: every session's `seq` column reads `1, 2, ..., N` in
creation order. -/
def SeqOK (db : DB) : Prop :=
  ∀ s, db.seqsOf s = List.range' 1 (db.seqsOf s).length

/-- The default environment configuration (`NOTIFICATION_SOUND=Glass`,
`NOTIFICATION_EDITOR=zed`). -/
def env0 : Env := ⟨"Glass", "zed"⟩

/-- Two opens for session `"s"` inside the same wall-clock second (equal
`created_at`), both still open. -/
def dbTie : DB :=
  (DB.empty.insertTask "s" "p1" "/p" 100).insertTask "s" "p2" "/p" 100

/-- Two opens for session `"s"` at distinct timestamps, both still open. -/
def dbW : DB :=
  (DB.empty.insertTask "s" "p1" "/p" 100).insertTask "s" "p2" "/p" 200

/-- The second task of `dbW`, its latest open task. -/
def tW : Task :=
  { id := 2, session_id := "s", created_at := 200, prompt := "p2",
    cwd := "/p", seq := 2, completed_at := none, duration_seconds := none }

/-- One open task recorded for the empty-string session. -/
def dbC8 : DB := DB.empty.insertTask "" "p" "/p" 100

/-- C6: for every non-negative whole-second count, `format_duration` returns
exactly what the specification's three-range rule prescribes, and in
particular maps 0, 59, 60, 125, 3600 and 3665 to "0s", "59s", "1m", "2m 5s",
"1h" and "1h 1m". -/
theorem spec6_duration_formatting :
    (∀ s : Nat, formatDuration (s : Int) = formatDurationSpec s) ∧
    formatDuration 0 = "0s" ∧ formatDuration 59 = "59s" ∧
    formatDuration 60 = "1m" ∧ formatDuration 125 = "2m 5s" ∧
    formatDuration 3600 = "1h" ∧ formatDuration 3665 = "1h 1m" := by
  refine ⟨fun s => ?_, rfl, rfl, rfl, rfl, rfl, rfl⟩
  simp only [formatDuration, formatDurationSpec]
  split_ifs <;> first | rfl | omega

/-- C9: the external command line built and executed by `send_notification`
does not depend on the `urgency` argument: two calls differing only in
urgency run exactly the same transports on the same arguments. -/
theorem spec9_urgency_not_delivered :
    ∀ (env : Env) (title subtitle message sound : String)
      (cwd : Option String) (u1 u2 : String) (p f : TransportResult),
      primaryCmd env title subtitle message sound cwd u1 =
        primaryCmd env title subtitle message sound cwd u2 ∧
      sendNotification env title subtitle message sound cwd u1 p f =
        sendNotification env title subtitle message sound cwd u2 p f := by
  intro env t s m sn c u1 u2 p f
  exact ⟨rfl, by cases p <;> cases f <;> rfl⟩

/-- C5: the dispatch table matches the reference table for all four known
kinds — titles, urgencies and focus behavior, with `auth_success` withholding
the supplied `cwd` — and every unknown kind yields the default presentation
(product-name title, normal urgency, focus action, raw message). -/
theorem spec5_dispatch_rules :
    (∀ (env : Env) (m c : String),
      handleNotification env "permission_prompt" m c =
        ⟨"Permission Required", "Claude needs approval", m, "Basso",
          some c, "critical"⟩) ∧
    (∀ (env : Env) (m c : String),
      handleNotification env "idle_prompt" m c =
        ⟨"Waiting for Input", "Claude is idle",
          "Waiting for your input (60+ seconds)", "Purr", some c, "low"⟩) ∧
    (∀ (env : Env) (m c : String),
      handleNotification env "elicitation_dialog" m c =
        ⟨"Input Needed", "MCP tool requires input", m, "Ping",
          some c, "high"⟩) ∧
    (∀ (env : Env) (m c : String),
      handleNotification env "auth_success" m c =
        ⟨"Authentication Success", "Logged in successfully", m, "Glass",
          none, "low"⟩) ∧
    (∀ (env : Env) (k m c : String),
      k ≠ "permission_prompt" → k ≠ "idle_prompt" →
      k ≠ "elicitation_dialog" → k ≠ "auth_success" →
      handleNotification env k m c =
        ⟨"Claude Code", "Notification", m, env.notificationSound,
          some c, "normal"⟩) := by
  refine ⟨fun env m c => rfl, fun env m c => rfl, fun env m c => rfl,
    fun env m c => rfl, ?_⟩
  intro env k m c h1 h2 h3 h4
  simp only [handleNotification, notificationConfigs,
    if_neg h1, if_neg h2, if_neg h3, if_neg h4, if_true]

/-- Closed-instance witness for the dispatch-table theorem, exercising the
unknown-kind default arm and the `auth_success` row. -/
theorem spec5_dispatch_rules_witness :
    handleNotification env0 "mystery_kind" "hello" "/proj" =
      ⟨"Claude Code", "Notification", "hello", "Glass", some "/proj",
        "normal"⟩ ∧
    handleNotification env0 "auth_success" "hello" "/proj" =
      ⟨"Authentication Success", "Logged in successfully", "hello", "Glass",
        none, "low"⟩ :=
  ⟨spec5_dispatch_rules.2.2.2.2 env0 "mystery_kind" "hello" "/proj"
      (by decide) (by decide) (by decide) (by decide),
    spec5_dispatch_rules.2.2.2.1 env0 "hello" "/proj"⟩

/-- C10: `idle_prompt` discards the caller's message and always delivers the
fixed idle text, while the three other known kinds and the unknown-kind
default all pass the caller's message through unchanged. -/
theorem spec10_idle_message_override :
    (∀ (env : Env) (m c : String),
      (handleNotification env "idle_prompt" m c).message =
        "Waiting for your input (60+ seconds)") ∧
    (∀ (env : Env) (m c : String),
      (handleNotification env "permission_prompt" m c).message = m) ∧
    (∀ (env : Env) (m c : String),
      (handleNotification env "elicitation_dialog" m c).message = m) ∧
    (∀ (env : Env) (m c : String),
      (handleNotification env "auth_success" m c).message = m) ∧
    (∀ (env : Env) (k m c : String),
      k ≠ "permission_prompt" → k ≠ "idle_prompt" →
      k ≠ "elicitation_dialog" → k ≠ "auth_success" →
      (handleNotification env k m c).message = m) := by
  refine ⟨fun env m c => rfl, fun env m c => rfl, fun env m c => rfl,
    fun env m c => rfl, ?_⟩
  intro env k m c h1 h2 h3 h4
  simp only [handleNotification, notificationConfigs,
    if_neg h1, if_neg h2, if_neg h3, if_neg h4, if_true]

/-- Closed-instance witness for the message-passthrough theorem: the idle
override at a concrete message, and the default arm passing it through. -/
theorem spec10_idle_message_override_witness :
    (handleNotification env0 "idle_prompt" "ignored text" "/proj").message =
      "Waiting for your input (60+ seconds)" ∧
    (handleNotification env0 "mystery_kind" "kept text" "/proj").message =
      "kept text" :=
  ⟨spec10_idle_message_override.1 env0 "ignored text" "/proj",
    spec10_idle_message_override.2.2.2.2 env0 "mystery_kind" "kept text"
      "/proj" (by decide) (by decide) (by decide) (by decide)⟩

/-- A NULL bound parameter (absent `session_id` key) matches no stored row,
since `session_id = NULL` is never true in SQL. -/
theorem openTasks_none_sid (db : DB) : db.openTasks none = [] := by
  simp [DB.openTasks, sessionMatches]

/-- With no open task for the session, the `SELECT ... LIMIT 1` is empty. -/
theorem selectLatestOpen_of_no_open (db : DB) (sid : Option String)
    (h : db.openTasks sid = []) : db.selectLatestOpen sid = none := by
  simp [DB.selectLatestOpen, h]

/-- With no open task for the session, `handle_stop` leaves the store alone
and requests nothing. -/
theorem handleStop_of_no_open (env : Env) (db : DB) (sid : Option String)
    (cwd : String) (now : Nat) (h : db.openTasks sid = []) :
    handleStop env db sid cwd now = (db, []) := by
  simp [handleStop, selectLatestOpen_of_no_open db sid h]

/-- C3: a `Stop` event for a session with zero open tasks is a no-op — the
selection returns nothing, the store is unchanged, no notification is
requested, and the process exits 0. -/
theorem spec3_stop_without_open_task_noop :
    ∀ (env : Env) (d : EventData) (db : DB) (now : Nat) (nowHM : String)
      (p f : TransportResult),
      db.openTasks d.session_id = [] →
      db.selectLatestOpen d.session_id = none ∧
      mainModel env (some "Stop") (.obj d) db now nowHM p f =
        ⟨0, db, [], []⟩ := by
  intro env d db now nowHM p f h
  refine ⟨selectLatestOpen_of_no_open db d.session_id h, ?_⟩
  have hs := handleStop_of_no_open env db d.session_id (d.cwd.getD "") now h
  simp only [mainModel]
  rw [if_neg (by decide : ¬ ("Stop" = "UserPromptSubmit"))]
  simp only [if_true, hs, runDeliveries, List.map_nil]

/-- Closed-instance witness for the `Stop` no-op theorem, on the empty store
and a session that never opened a task. -/
theorem spec3_stop_without_open_task_noop_witness :
    DB.empty.selectLatestOpen (some "x") = none ∧
    mainModel env0 (some "Stop") (.obj { session_id := some "x" }) DB.empty
      5 "12:00" .completes .completes = ⟨0, DB.empty, [], []⟩ :=
  spec3_stop_without_open_task_noop env0 { session_id := some "x" } DB.empty
    5 "12:00" .completes .completes rfl

/-- C4: `send_notification` never lets a transport failure escape: the
primary transport is attempted first; exactly on the missing-binary failure
(`FileNotFoundError`) it falls back once to `osascript`; every other failure
of either transport (timeouts included) ends in a logged error; and the
transport behaviors never influence the process exit code. -/
theorem spec4_gateway_never_fatal :
    (∀ (env : Env) (t s m sn : String) (c : Option String) (u : String)
        (p f : TransportResult),
      (sendNotification env t s m sn c u p f).1.head? =
        some (primaryCmd env t s m sn c u)) ∧
    (∀ (env : Env) (t s m sn : String) (c : Option String) (u : String)
        (f : TransportResult),
      sendNotification env t s m sn c u .raisesFileNotFound f =
        ([primaryCmd env t s m sn c u,
          ["osascript", "-e", fallbackScript t s m sn]],
          if f = .completes then Outcome.sentFallback
          else Outcome.loggedError)) ∧
    (∀ (env : Env) (t s m sn : String) (c : Option String) (u : String)
        (p f : TransportResult), p ≠ .raisesFileNotFound →
      sendNotification env t s m sn c u p f =
        ([primaryCmd env t s m sn c u],
          if p = .completes then Outcome.sentPrimary
          else Outcome.loggedError)) ∧
    (∀ (env : Env) (arg : Option String) (stdin : Stdin) (db : DB)
        (now : Nat) (nowHM : String) (p f p2 f2 : TransportResult),
      (mainModel env arg stdin db now nowHM p f).exit =
        (mainModel env arg stdin db now nowHM p2 f2).exit) := by
  refine ⟨fun env t s m sn c u p f => ?_, fun env t s m sn c u f => ?_,
    fun env t s m sn c u p f hp => ?_, fun env arg stdin db now nowHM p f p2 f2 => ?_⟩
  · cases p <;> cases f <;> rfl
  · cases f <;> rfl
  · cases p with
    | completes => rfl
    | raisesFileNotFound => exact absurd rfl hp
    | raisesTimeout => rfl
    | raisesOther => rfl
  · cases arg with
    | none => rfl
    | some h =>
      cases stdin with
      | empty => rfl
      | malformed => rfl
      | obj d =>
        simp only [mainModel]
        cases d.session_id <;>
          (by_cases h1 : h = "UserPromptSubmit" <;>
            by_cases h2 : h = "Stop" <;>
            by_cases h3 : h = "SubagentStop" <;>
            by_cases h4 : h = "Notification" <;>
            by_cases h5 : h = "SessionStart" <;>
            by_cases h6 : h = "SessionEnd" <;>
            simp [h1, h2, h3, h4, h5, h6])

/-- Closed-instance witness for the gateway theorem: a timed-out primary is
swallowed without fallback, and a missing primary falls back to `osascript`
whose own failure is also swallowed. -/
theorem spec4_gateway_never_fatal_witness :
    sendNotification env0 "T" "S" "M" "G" (some "/p") "low"
        .raisesTimeout .completes =
      ([primaryCmd env0 "T" "S" "M" "G" (some "/p") "low"],
        Outcome.loggedError) ∧
    sendNotification env0 "T" "S" "M" "G" (some "/p") "low"
        .raisesFileNotFound .raisesTimeout =
      ([primaryCmd env0 "T" "S" "M" "G" (some "/p") "low",
        ["osascript", "-e", fallbackScript "T" "S" "M" "G"]],
        Outcome.loggedError) := by
  refine ⟨?_, ?_⟩
  · have h := spec4_gateway_never_fatal.2.2.1 env0 "T" "S" "M" "G"
      (some "/p") "low" TransportResult.raisesTimeout
      TransportResult.completes (by decide)
    simpa using h
  · have h := spec4_gateway_never_fatal.2.1 env0 "T" "S" "M" "G"
      (some "/p") "low" TransportResult.raisesTimeout
    simpa using h

/-- Folding `max` over `1, ..., n` yields `n`. -/
theorem foldl_max_range (n : Nat) :
    List.foldl max 0 (List.range' 1 n) = n := by
  induction n with
  | zero => rfl
  | succ k ih =>
    rw [List.range'_concat, List.foldl_append, ih]
    simp only [List.foldl_cons, List.foldl_nil, Nat.one_mul]
    rw [Nat.max_eq_right (by omega)]
    omega

/-- Appending the one-element tail of `range'`. -/
theorem range_one_concat (n : Nat) :
    List.range' 1 (n + 1) = List.range' 1 n ++ [n + 1] := by
  rw [List.range'_concat]
  norm_num
  omega

/-- The trigger's `COALESCE(MAX(seq), 0)` is a fold of `max` over the
session's `seq` column. -/
theorem maxSeq_eq_foldl_seqs (db : DB) (s : String) :
    db.maxSeq s = (db.seqsOf s).foldl max 0 := by
  simp [DB.maxSeq, DB.seqsOf, List.foldl_map]

/-- Inserting for session `s` appends `maxSeq + 1` to that session's `seq`
column. -/
theorem seqsOf_insert_same (db : DB) (s sp cw : String) (now : Nat) :
    (db.insertTask s sp cw now).seqsOf s =
      db.seqsOf s ++ [db.maxSeq s + 1] := by
  simp [DB.insertTask, DB.seqsOf, DB.sessionTasks, List.filter_append]

/-- Inserting for session `s` leaves every other session's `seq` column
unchanged. -/
theorem seqsOf_insert_other (db : DB) (s sp cw : String) (now : Nat)
    (s2 : String) (hne : s2 ≠ s) :
    (db.insertTask s sp cw now).seqsOf s2 = db.seqsOf s2 := by
  simp [DB.insertTask, DB.seqsOf, DB.sessionTasks, List.filter_append,
    hne.symm]

/-- The empty store satisfies the sequence invariant. -/
theorem empty_SeqOK : SeqOK DB.empty := fun _ => rfl

/-- One `openTask` preserves the sequence invariant: the trigger reads the
current per-session maximum and assigns its successor. -/
theorem insert_SeqOK (db : DB) (s sp cw : String) (now : Nat)
    (h : SeqOK db) : SeqOK (db.insertTask s sp cw now) := by
  intro s2
  by_cases hs : s2 = s
  · subst hs
    rw [seqsOf_insert_same]
    have hm : db.maxSeq s2 = (db.seqsOf s2).length := by
      conv_lhs => rw [maxSeq_eq_foldl_seqs db s2, h s2]
      rw [foldl_max_range]
    set n := (db.seqsOf s2).length with hn
    rw [hm, h s2, List.length_append, List.length_range']
    simp only [List.length_cons, List.length_nil]
    rw [range_one_concat]
  · rw [seqsOf_insert_other db s sp cw now s2 hs]
    exact h s2

/-- Unfolding one step of `applyOpens`. -/
theorem applyOpens_cons (db : DB) (r : OpenReq) (reqs : List OpenReq) :
    applyOpens db (r :: reqs) =
      applyOpens (db.insertTask r.sid r.prompt r.cwd r.time) reqs := rfl

/-- Every sequence of `openTask` calls preserves the invariant. -/
theorem applyOpens_SeqOK (reqs : List OpenReq) (db : DB) (h : SeqOK db) :
    SeqOK (applyOpens db reqs) := by
  induction reqs generalizing db with
  | nil => exact h
  | cons r rest ih =>
    rw [applyOpens_cons]
    exact ih _ (insert_SeqOK db r.sid r.prompt r.cwd r.time h)

/-- Each session's row count grows by exactly its number of requests. -/
theorem applyOpens_count (reqs : List OpenReq) (db : DB) (s : String) :
    ((applyOpens db reqs).seqsOf s).length =
      (db.seqsOf s).length + reqs.countP (fun r => r.sid = s) := by
  induction reqs generalizing db with
  | nil => simp [applyOpens]
  | cons r rest ih =>
    rw [applyOpens_cons, ih]
    by_cases hs : r.sid = s
    · subst hs
      rw [List.countP_cons_of_pos (fun r2 : OpenReq => decide (r2.sid = r.sid))
        rest (by simp), seqsOf_insert_same, List.length_append]
      simp only [List.length_cons, List.length_nil]
      omega
    · rw [List.countP_cons_of_neg (fun r2 : OpenReq => decide (r2.sid = s))
        rest (by simp [hs]),
        seqsOf_insert_other db r.sid r.prompt r.cwd r.time s (Ne.symm hs)]

/-- C1: starting from a fresh store, any sequence of `openTask` calls —
concurrent opens serialize into such a sequence, since SQLite runs each
insert-plus-trigger atomically under the database write lock — leaves every
session's `seq` column reading exactly `1, 2, ..., N` in creation order,
where `N` is that session's number of opens: no gaps, no repeats, no sharing. -/
theorem spec1_seq_assignment_contiguous :
    ∀ (reqs : List OpenReq) (s : String),
      (applyOpens DB.empty reqs).seqsOf s =
        List.range' 1 (reqs.countP (fun r => r.sid = s)) := by
  intro reqs s
  have h1 := applyOpens_SeqOK reqs DB.empty empty_SeqOK s
  have h2 := applyOpens_count reqs DB.empty s
  have h0 : (DB.empty.seqsOf s).length = 0 := rfl
  rw [h1, h2, h0, Nat.zero_add]

/-- In a list sorted by strictly increasing `id`, `find?` with a predicate
that cannot distinguish tasks of equal `created_at` returns an element whose
`id` is minimal among entries sharing its `created_at`. -/
theorem find_first_min_id (q : Task → Bool)
    (hq : ∀ a b : Task, q a = true → b.created_at = a.created_at →
      q b = true) :
    ∀ (l : List Task), l.Pairwise (fun a b => a.id < b.id) →
      ∀ t : Task, l.find? q = some t →
        ∀ u ∈ l, u.created_at = t.created_at → t.id ≤ u.id := by
  intro l
  induction l with
  | nil =>
    intro _ t ht
    simp at ht
  | cons hd tl ih =>
    intro hsort t hfind u hu hcr
    rcases List.pairwise_cons.mp hsort with ⟨hhd, htl⟩
    cases hqh : q hd with
    | true =>
      rw [List.find?_cons_of_pos _ hqh] at hfind
      injection hfind with htEq
      subst htEq
      rcases List.mem_cons.mp hu with rfl | hmem
      · exact Nat.le_refl _
      · exact Nat.le_of_lt (hhd u hmem)
    | false =>
      rw [List.find?_cons_of_neg _ (by simp [hqh])] at hfind
      rcases List.mem_cons.mp hu with rfl | hmem
      · have hqt : q u = true := hq t u (List.find?_some hfind) hcr
        rw [hqt] at hqh
        exact absurd hqh (by simp)
      · exact ih htl t hfind u hmem hcr

/-- C2 (amended): `handle_stop` closes an open task of the session whose
`created_at` is maximal; among several open tasks sharing that maximal
`created_at` it closes the first-inserted one (the smallest id), not the one
with the greatest id; it stamps `completed_at = now`, stores
`duration_seconds = now - created_at`, and rewrites no other row. -/
theorem spec2_close_latest_amended :
    ∀ (env : Env) (db : DB) (sid : Option String) (cwd : String) (now : Nat)
      (t : Task),
      db.tasks.Pairwise (fun a b => a.id < b.id) →
      db.selectLatestOpen sid = some t →
      t ∈ db.openTasks sid ∧
      (∀ u ∈ db.openTasks sid, u.created_at ≤ t.created_at) ∧
      (∀ u ∈ db.openTasks sid, u.created_at = t.created_at → t.id ≤ u.id) ∧
      (handleStop env db sid cwd now).1 = db.closeTask t.id now ∧
      (handleStop env db sid cwd now).2 =
        [⟨getProjectName cwd, "Task #" ++ toString t.seq ++ " complete",
          "Duration: " ++ formatDuration ((now : Int) - (t.created_at : Int)),
          env.notificationSound, some cwd, "normal"⟩] ∧
      (db.closeTask t.id now).tasks = db.tasks.map (fun u =>
        if u.id = t.id then
          { u with
            completed_at := some now
            duration_seconds := some ((now : Int) - (u.created_at : Int)) }
        else u) := by
  intro env db sid cwd now t hsort hsel
  have hfind : (db.openTasks sid).find?
      (fun v => (db.openTasks sid).all
        (fun u => decide (u.created_at ≤ v.created_at))) = some t := by
    simpa [DB.selectLatestOpen] using hsel
  have hmem : t ∈ db.openTasks sid := List.mem_of_find?_eq_some hfind
  have hall : ∀ u ∈ db.openTasks sid, u.created_at ≤ t.created_at := by
    have hq := List.find?_some hfind
    intro u hu
    have h2 := List.all_eq_true.mp hq u hu
    simpa using h2
  have hties : ∀ u ∈ db.openTasks sid,
      u.created_at = t.created_at → t.id ≤ u.id := by
    refine find_first_min_id _ ?_ (db.openTasks sid) (hsort.filter _) t
      hfind
    intro a b hqa hba
    simp only [List.all_eq_true, decide_eq_true_eq] at hqa ⊢
    intro x hx
    rw [hba]
    exact hqa x hx
  have hstop : handleStop env db sid cwd now =
      (db.closeTask t.id now,
        [⟨getProjectName cwd, "Task #" ++ toString t.seq ++ " complete",
          "Duration: " ++ formatDuration ((now : Int) - (t.created_at : Int)),
          env.notificationSound, some cwd, "normal"⟩]) := by
    simp [handleStop, hsel]
  exact ⟨hmem, hall, hties, by rw [hstop], by rw [hstop], rfl⟩

/-- Closed-instance witness for the amended close-latest theorem: on a store
with two open tasks at seconds 100 and 200, the task created at 200 (id 2)
is selected and closed at second 260. -/
theorem spec2_close_latest_amended_witness :
    tW ∈ dbW.openTasks (some "s") ∧
    (handleStop env0 dbW (some "s") "/p" 260).1 = dbW.closeTask tW.id 260 ∧
    (handleStop env0 dbW (some "s") "/p" 260).2 =
      [⟨getProjectName "/p", "Task #" ++ toString tW.seq ++ " complete",
        "Duration: " ++ formatDuration ((260 : Int) - (tW.created_at : Int)),
        env0.notificationSound, some "/p", "normal"⟩] := by
  have h := spec2_close_latest_amended env0 dbW (some "s") "/p" 260 tW
    (by decide) (by decide)
  exact ⟨h.1, h.2.2.2.1, h.2.2.2.2.1⟩

/-- C2 fails as stated on ties: two opens for one session within the same
wall-clock second give two open tasks with equal `created_at` and ids 1, 2;
the code closes id 1 (the first-inserted), not the task with the greatest
id, 2. -/
theorem spec2_tie_break_counterexample :
    (dbTie.openTasks (some "s")).map Task.id = [1, 2] ∧
    (dbTie.openTasks (some "s")).map Task.created_at = [100, 100] ∧
    (dbTie.selectLatestOpen (some "s")).map Task.id = some 1 ∧
    ((handleStop env0 dbTie (some "s") "/p" 160).1.tasks.filter
      (fun t => t.completed_at.isSome)).map Task.id = [1] := by
  exact ⟨rfl, rfl, rfl, rfl⟩

/-- C7 (amended): the exit code is always 0 or 1; it is 1 exactly on a
missing argument, malformed JSON, an unknown event-kind argument, or on a
handler failure — in this program, a `UserPromptSubmit` payload without
`session_id`, whose NULL insert violates the `NOT NULL` constraint and is
converted to exit 1 by the generic exception arm. -/
theorem spec7_exit_codes_amended :
    ∀ (env : Env) (arg : Option String) (stdin : Stdin) (db : DB) (now : Nat)
      (nowHM : String) (p f : TransportResult),
      ((mainModel env arg stdin db now nowHM p f).exit = 0 ∨
        (mainModel env arg stdin db now nowHM p f).exit = 1) ∧
      ((mainModel env arg stdin db now nowHM p f).exit = 1 ↔
        (arg = none ∨ stdin = Stdin.malformed ∨
          (∃ h d, arg = some h ∧ stdin = Stdin.obj d ∧ h ∉ knownEvents) ∨
          (∃ d, arg = some "UserPromptSubmit" ∧ stdin = Stdin.obj d ∧
            d.session_id = none))) := by
  intro env arg stdin db now nowHM p f
  cases arg with
  | none => exact ⟨Or.inr rfl, by simp [mainModel]⟩
  | some h =>
    cases stdin with
    | empty => exact ⟨Or.inl rfl, by simp [mainModel]⟩
    | malformed => exact ⟨Or.inr rfl, by simp [mainModel]⟩
    | obj d =>
      by_cases h1 : h = "UserPromptSubmit"
      · subst h1
        cases hsid : d.session_id with
        | none =>
          refine ⟨Or.inr (by simp [mainModel, hsid]), ?_, ?_⟩
          · intro _
            exact Or.inr (Or.inr (Or.inr ⟨d, rfl, rfl, hsid⟩))
          · intro _
            simp [mainModel, hsid]
        | some sid =>
          refine ⟨Or.inl (by simp [mainModel, hsid]), ?_⟩
          simp [mainModel, hsid, knownEvents]
      · by_cases h2 : h = "Stop"
        · subst h2
          refine ⟨Or.inl (by simp [mainModel]), ?_⟩
          simp [mainModel, knownEvents]
        · by_cases h3 : h = "SubagentStop"
          · subst h3
            refine ⟨Or.inl (by simp [mainModel]), ?_⟩
            simp [mainModel, knownEvents]
          · by_cases h4 : h = "Notification"
            · subst h4
              refine ⟨Or.inl (by simp [mainModel]), ?_⟩
              simp [mainModel, knownEvents]
            · by_cases h5 : h = "SessionStart"
              · subst h5
                refine ⟨Or.inl (by simp [mainModel]), ?_⟩
                simp [mainModel, knownEvents]
              · by_cases h6 : h = "SessionEnd"
                · subst h6
                  refine ⟨Or.inl (by simp [mainModel]), ?_⟩
                  simp [mainModel, knownEvents]
                · refine ⟨Or.inr (by simp [mainModel, h1, h2, h3, h4, h5,
                    h6]), ?_, ?_⟩
                  · intro _
                    refine Or.inr (Or.inr (Or.inl ⟨h, d, rfl, rfl, ?_⟩))
                    simp [knownEvents, h1, h2, h3, h4, h5, h6]
                  · intro _
                    simp [mainModel, h1, h2, h3, h4, h5, h6]

/-- C7 fails as stated with "1 exactly on": a `UserPromptSubmit` invocation
with the well-formed JSON object payload `{}` — the argument present and a
known event kind — still exits 1, because the absent `session_id` is
inserted as NULL and violates the `NOT NULL` constraint. -/
theorem spec7_exit_codes_counterexample :
    (mainModel env0 (some "UserPromptSubmit") (Stdin.obj {}) DB.empty 0
      "00:00" .completes .completes).exit = 1 ∧
    "UserPromptSubmit" ∈ knownEvents ∧
    Stdin.obj {} ≠ Stdin.malformed :=
  ⟨rfl, by decide, by decide⟩

/-- Two payloads that agree on `session_id` and on every defaulted field
read (`.get(key, default)`) are handled identically. -/
theorem mainModel_fields_congr (env : Env) (arg : Option String)
    (d1 d2 : EventData) (db : DB) (now : Nat) (nowHM : String)
    (p f : TransportResult)
    (hs : d1.session_id = d2.session_id)
    (hp : d1.prompt.getD "" = d2.prompt.getD "")
    (hc : d1.cwd.getD "" = d2.cwd.getD "")
    (hn : d1.notification_type.getD "" = d2.notification_type.getD "")
    (hm : d1.message.getD "Claude Code notification" =
      d2.message.getD "Claude Code notification")
    (hsrc : d1.source.getD "startup" = d2.source.getD "startup")
    (hr : d1.reason.getD "exit" = d2.reason.getD "exit") :
    mainModel env arg (.obj d1) db now nowHM p f =
      mainModel env arg (.obj d2) db now nowHM p f := by
  cases arg with
  | none => rfl
  | some h =>
    simp only [mainModel]
    rw [hs, hp, hc, hn, hm, hsrc, hr]

/-- C8 (amended): absent `prompt`, `cwd` and `notification_type` fields do
default to the empty string, but `message` defaults to
"Claude Code notification", `source` to "startup", `reason` to "exit", and
`session_id` to NULL — which is not the empty string: a `Stop` without
`session_id` matches no task and does nothing, and a `UserPromptSubmit`
without `session_id` fails with exit code 1. -/
theorem spec8_field_defaults_amended :
    (∀ (env : Env) (arg : Option String) (d : EventData) (db : DB)
        (now : Nat) (nowHM : String) (p f : TransportResult),
      mainModel env arg (.obj { d with prompt := none }) db now nowHM p f =
        mainModel env arg (.obj { d with prompt := some "" }) db now nowHM
          p f) ∧
    (∀ (env : Env) (arg : Option String) (d : EventData) (db : DB)
        (now : Nat) (nowHM : String) (p f : TransportResult),
      mainModel env arg (.obj { d with cwd := none }) db now nowHM p f =
        mainModel env arg (.obj { d with cwd := some "" }) db now nowHM
          p f) ∧
    (∀ (env : Env) (arg : Option String) (d : EventData) (db : DB)
        (now : Nat) (nowHM : String) (p f : TransportResult),
      mainModel env arg (.obj { d with notification_type := none }) db now
          nowHM p f =
        mainModel env arg (.obj { d with notification_type := some "" }) db
          now nowHM p f) ∧
    (∀ (env : Env) (arg : Option String) (d : EventData) (db : DB)
        (now : Nat) (nowHM : String) (p f : TransportResult),
      mainModel env arg (.obj { d with message := none }) db now nowHM p f =
        mainModel env arg
          (.obj { d with message := some "Claude Code notification" }) db
          now nowHM p f) ∧
    (∀ (env : Env) (arg : Option String) (d : EventData) (db : DB)
        (now : Nat) (nowHM : String) (p f : TransportResult),
      mainModel env arg (.obj { d with source := none }) db now nowHM p f =
        mainModel env arg (.obj { d with source := some "startup" }) db now
          nowHM p f) ∧
    (∀ (env : Env) (arg : Option String) (d : EventData) (db : DB)
        (now : Nat) (nowHM : String) (p f : TransportResult),
      mainModel env arg (.obj { d with reason := none }) db now nowHM p f =
        mainModel env arg (.obj { d with reason := some "exit" }) db now
          nowHM p f) ∧
    (∀ (env : Env) (d : EventData) (db : DB) (now : Nat) (nowHM : String)
        (p f : TransportResult),
      mainModel env (some "Stop") (.obj { d with session_id := none }) db
        now nowHM p f = ⟨0, db, [], []⟩) ∧
    (∀ (env : Env) (d : EventData) (db : DB) (now : Nat) (nowHM : String)
        (p f : TransportResult),
      mainModel env (some "UserPromptSubmit")
        (.obj { d with session_id := none }) db now nowHM p f =
        ⟨1, db, [], []⟩) := by
  refine ⟨?_, ?_, ?_, ?_, ?_, ?_, ?_, ?_⟩
  · intro env arg d db now nowHM p f
    exact mainModel_fields_congr env arg _ _ db now nowHM p f rfl rfl rfl
      rfl rfl rfl rfl
  · intro env arg d db now nowHM p f
    exact mainModel_fields_congr env arg _ _ db now nowHM p f rfl rfl rfl
      rfl rfl rfl rfl
  · intro env arg d db now nowHM p f
    exact mainModel_fields_congr env arg _ _ db now nowHM p f rfl rfl rfl
      rfl rfl rfl rfl
  · intro env arg d db now nowHM p f
    exact mainModel_fields_congr env arg _ _ db now nowHM p f rfl rfl rfl
      rfl rfl rfl rfl
  · intro env arg d db now nowHM p f
    exact mainModel_fields_congr env arg _ _ db now nowHM p f rfl rfl rfl
      rfl rfl rfl rfl
  · intro env arg d db now nowHM p f
    exact mainModel_fields_congr env arg _ _ db now nowHM p f rfl rfl rfl
      rfl rfl rfl rfl
  · intro env d db now nowHM p f
    have h := handleStop_of_no_open env db none
      (({ d with session_id := none } : EventData).cwd.getD "") now
      (openTasks_none_sid db)
    simp only [mainModel]
    rw [if_neg (by decide : ¬ ("Stop" = "UserPromptSubmit"))]
    simp only [if_true, h, runDeliveries, List.map_nil]
  · intro env d db now nowHM p f
    rfl

/-- C8 fails as stated for `session_id` (and for `message`, `source`,
`reason`, whose defaults are not the empty string): on a store holding one
open task under the empty-string session, a `Stop` whose payload omits
`session_id` closes nothing, while the same payload with `session_id = ""`
closes the task and requests a notification; an absent `reason` on
`SessionEnd` surfaces as "exit", not as the empty string. -/
theorem spec8_field_defaults_counterexample :
    mainModel env0 (some "Stop") (.obj { session_id := none, cwd := some "/p" }) dbC8 160 "00:00" .completes .completes ≠
      mainModel env0 (some "Stop") (.obj { session_id := some "", cwd := some "/p" }) dbC8 160 "00:00" .completes .completes ∧
    (mainModel env0 (some "Stop") (.obj { session_id := none, cwd := some "/p" }) dbC8 160 "00:00"
        .completes .completes).deliveries = [] ∧
    (mainModel env0 (some "Stop") (.obj { session_id := some "", cwd := some "/p" }) dbC8 160 "00:00"
        .completes .completes).deliveries ≠ [] ∧
    (mainModel env0 (some "SessionEnd") (.obj { reason := none }) DB.empty 0
        "00:00" .completes .completes).deliveries.map Delivery.message =
      ["Reason: exit"] := by
  exact ⟨by decide, rfl, by decide, rfl⟩

end ClaudeNotifier
